import Mathlib

/-
Verification of the neocortex shared-memory library against its specification.

The repository holds two generations of code:
  * src/lib.rs + src/hive_error.rs : the `Hive` segment handle (creation, attach,
    read, write, drop) performing the libc calls directly;
  * src/semaphore.rs, src/builder.rs, src/crash.rs : the `Semaphore` lock, the
    typed `CortexBuilder`, and the `CortexError` model of the newer `Cortex`
    generation (the `Cortex` segment handle itself is not in the sources; where a
    claim depends on it, a definition is modelled from the spec and marked so).

The embedding is a shallow one: every libc call is resolved against an explicit
environment (`LockEnv` for the semaphore calls, `MemEnv` for the System V
shared-memory calls), and each operation additionally returns the list of
kernel-visible operations it performed, in order, so that ordering and
frame-effect claims can be stated.  The `os_error` payload captured by the Rust
error constructors (`std::io::Error::last_os_error()`) is ambient OS state and
is elided; each error carries its message string.
-/

instance {ε α : Type} [DecidableEq ε] [DecidableEq α] : DecidableEq (Except ε α)
  | Except.error a, Except.error b =>
      if h : a = b then Decidable.isTrue (by rw [h])
      else Decidable.isFalse (fun hc => h (by injection hc))
  | Except.error _, Except.ok _ => Decidable.isFalse (fun hc => Except.noConfusion hc)
  | Except.ok _, Except.error _ => Decidable.isFalse (fun hc => Except.noConfusion hc)
  | Except.ok a, Except.ok b =>
      if h : a = b then Decidable.isTrue (by rw [h])
      else Decidable.isFalse (fun hc => h (by injection hc))

/-- Kernel-visible operations, in the order the code performs them. -/
inductive KernelOp
  | semOpen
  | semClose
  | semUnlink
  | semWait
  | semPost
  | shmGet
  | shmAt
  | shmRmid (id : Int)
  | memRead
  | memWrite (addr : Int)
deriving DecidableEq, Repr

/-- Outcomes of the named-semaphore calls, supplied by the environment. -/
structure LockEnv where
  semOpenExclOk : Bool
  semOpenPlainOk : Bool
  semWaitOk : Bool
  semPostOk : Bool
deriving DecidableEq, Repr

/-- Outcomes of the System V shared-memory calls, supplied by the environment;
`slot` is the current contents of the single `T` slot of the segment. -/
structure MemEnv (T : Type) where
  shmgetCreate : Int
  shmgetLookup : Int
  shmat : Int → Int
  shmctlRmidOk : Int → Bool
  slot : T

/-- Decimal digit characters, used to render the key exactly as Rust's
`Display for i32` does inside `format!`. -/
def digitChar : Nat → Char
  | 0 => '0'
  | 1 => '1'
  | 2 => '2'
  | 3 => '3'
  | 4 => '4'
  | 5 => '5'
  | 6 => '6'
  | 7 => '7'
  | 8 => '8'
  | _ => '9'

/-- Decimal rendering of a positive natural number, most significant digit
first; the first argument is structural fuel (any fuel ≥ n suffices). -/
def natDecAux : Nat → Nat → List Char
  | 0, _ => []
  | _ + 1, 0 => []
  | fuel + 1, n + 1 =>
      natDecAux fuel ((n + 1) / 10) ++ [digitChar ((n + 1) % 10)]

/-- Decimal rendering of a natural number (most significant digit first). -/
def natDec (n : Nat) : List Char :=
  if n = 0 then ['0'] else natDecAux n n

/-- Decimal rendering of a signed integer, as Rust renders an `i32`. -/
def intDec (k : Int) : List Char :=
  if k < 0 then '-' :: natDec k.natAbs else natDec k.natAbs

/-- `CString::new`: fails exactly when the byte string holds an embedded NUL. -/
def cstringNew (s : List Char) : Except Unit (List Char) :=
  if Char.ofNat 0 ∈ s then Except.error () else Except.ok s

/-- src/semaphore.rs: the fixed textual base of every semaphore kernel name. -/
def semNameBase : List Char := "cortex_semaphore_".toList

/-- src/lib.rs: the fixed textual base of every Hive semaphore kernel name. -/
def hiveNameBase : List Char := "hive_mind_".toList

/-- The characters of `format!("cortex_semaphore_\x7b\x7d", shmem_key)`. -/
def semName (shmem_key : Int) : List Char := semNameBase ++ intDec shmem_key

/-- src/semaphore.rs `get_name`: derive the lock's kernel name from the key. -/
def get_name (shmem_key : Int) : Except Unit (List Char) :=
  cstringNew (semName shmem_key)

/-- The characters of `format!("hive_mind_\x7b\x7d", key)` from src/lib.rs. -/
def hiveName (key : Int) : List Char := hiveNameBase ++ intDec key

/-- src/hive_error.rs `HiveError` (the `InnerError.os_error` field is ambient
OS state and elided; the message is kept). -/
inductive HiveError
  | NulError (msg : String)
  | CleanSystemError (msg : String)
  | DirtySystemError (msg : String)
deriving DecidableEq, Repr

/-- src/crash.rs `CortexError` (same elision of `os_error` as `HiveError`). -/
inductive CortexError
  | NulError (msg : String)
  | CleanSystem (msg : String)
  | DirtySystem (msg : String)
deriving DecidableEq, Repr

/-- `true` exactly on the `NulError` variant of a `HiveError` result. -/
def hiveResIsNul {α : Type} : Except HiveError α → Bool
  | Except.error (HiveError.NulError _) => true
  | _ => false

/-- `true` exactly on the `NulError` variant of a `CortexError` result. -/
def cortexResIsNul {α : Type} : Except CortexError α → Bool
  | Except.error (CortexError.NulError _) => true
  | _ => false

/-- src/lib.rs `try_clear_mem`: `shmctl(id, IPC_RMID, null)`, `DirtySystemError`
when the call reports failure. -/
def try_clear_mem {T : Type} (me : MemEnv T) (id : Int) : Except HiveError Unit :=
  if me.shmctlRmidOk id then Except.ok ()
  else Except.error (HiveError.DirtySystemError
    ("Error cleaning up shared memory with id: " ++ toString id))

/-- src/lib.rs `Hive<T>` (the raw `semaphore` descriptor is elided; `ptr` is the
raw address returned by `shmat`). -/
structure Hive where
  key : Int
  id : Int
  size : Nat
  is_owner : Bool
  semaphore_name : List Char
  ptr : Int
deriving DecidableEq, Repr

/-- src/lib.rs `Hive::new`, tail after the `shmget` block: `shmat`, the
`if ptr as isize == -1 \x7b try_clear_mem(id)? \x7d` block, the unconditional
`ptr.write(data)`, and the `Ok(Self \x7b .. \x7d)` literal. -/
def Hive.newMap {T : Type} (me : MemEnv T) (key : Int) (sizeT : Nat)
    (nm : List Char) (id : Int) : Except HiveError Hive × List KernelOp :=
  let ptr := me.shmat id
  if ptr = -1 then
    match try_clear_mem me id with
    | Except.error e => (Except.error e, [KernelOp.shmAt, KernelOp.shmRmid id])
    | Except.ok _ =>
        (Except.ok ⟨key, id, sizeT, true, nm, ptr⟩,
         [KernelOp.shmAt, KernelOp.shmRmid id, KernelOp.memWrite ptr])
  else
    (Except.ok ⟨key, id, sizeT, true, nm, ptr⟩,
     [KernelOp.shmAt, KernelOp.memWrite ptr])

/-- src/lib.rs `Hive::new`: build the semaphore name, `sem_open` with
`O_EXCL | O_CREAT` (Clean failure when it reports `SEM_FAILED`), `shmget` with
`IPC_CREAT | IPC_EXCL | 0o666`, the `if id == -1 \x7b try_clear_mem(id)? \x7d`
block, then the mapping tail `Hive.newMap`.  `sizeT` stands for
`std::mem::size_of::<T>()`. -/
def Hive.new {T : Type} (le : LockEnv) (me : MemEnv T) (key : Int)
    (sizeT : Nat) : Except HiveError Hive × List KernelOp :=
  match cstringNew (hiveName key) with
  | Except.error _ => (Except.error (HiveError.NulError "std::ffi::NulError"), [])
  | Except.ok nm =>
    if le.semOpenExclOk then
      let id := me.shmgetCreate
      if id = -1 then
        match try_clear_mem me id with
        | Except.error e =>
            (Except.error e, [KernelOp.semOpen, KernelOp.shmGet, KernelOp.shmRmid id])
        | Except.ok _ =>
            let r := Hive.newMap me key sizeT nm id
            (r.1, [KernelOp.semOpen, KernelOp.shmGet, KernelOp.shmRmid id] ++ r.2)
      else
        let r := Hive.newMap me key sizeT nm id
        (r.1, [KernelOp.semOpen, KernelOp.shmGet] ++ r.2)
    else
      (Except.error (HiveError.CleanSystemError "Error during sem_open"), [KernelOp.semOpen])

/-- src/lib.rs `Hive::attach`: `sem_open` with flags 0, `shmget(key, 0, 0o666)`,
`shmat`; each failure propagates as a Clean error; `is_owner` is `false`. -/
def Hive.attach {T : Type} (le : LockEnv) (me : MemEnv T) (key : Int)
    (sizeT : Nat) : Except HiveError Hive × List KernelOp :=
  match cstringNew (hiveName key) with
  | Except.error _ => (Except.error (HiveError.NulError "std::ffi::NulError"), [])
  | Except.ok nm =>
    if le.semOpenPlainOk then
      let id := me.shmgetLookup
      if id = -1 then
        (Except.error (HiveError.CleanSystemError
           ("Error during shmget for key " ++ toString key)),
         [KernelOp.semOpen, KernelOp.shmGet])
      else
        let ptr := me.shmat id
        if ptr = -1 then
          (Except.error (HiveError.CleanSystemError "Error during shmat"),
           [KernelOp.semOpen, KernelOp.shmGet, KernelOp.shmAt])
        else
          (Except.ok ⟨key, id, sizeT, false, nm, ptr⟩,
           [KernelOp.semOpen, KernelOp.shmGet, KernelOp.shmAt])
    else
      (Except.error (HiveError.CleanSystemError "Error during sem_open"), [KernelOp.semOpen])

/-- src/lib.rs `Hive::get_data`: `sem_wait`, `ptr.read()`, `sem_post`, return the
copy.  The source discards the return values of `sem_wait` and `sem_post` (the
`let` bindings below mirror that discarding), and its return type `T` has no
error channel at all. -/
def Hive.get_data {T : Type} (le : LockEnv) (me : MemEnv T) : T × List KernelOp :=
  let _w : Int := if le.semWaitOk then 0 else -1
  let data := me.slot
  let _p : Int := if le.semPostOk then 0 else -1
  (data, [KernelOp.semWait, KernelOp.memRead, KernelOp.semPost])

/-- src/lib.rs `impl Drop for Hive`: non-owners return immediately; owners run
`sem_close`, `sem_unlink`, `try_clear_mem` unconditionally (failures of each are
logged, never propagated, and do not stop the later calls). -/
def Hive.dropEffects (h : Hive) : List KernelOp :=
  if h.is_owner = false then []
  else [KernelOp.semClose, KernelOp.semUnlink, KernelOp.shmRmid h.id]

/-- src/semaphore.rs `SemaphorePermission`. -/
inductive SemaphorePermission
  | OwnerOnly
  | OwnerAndGroup
  | ReadWriteForOthers
  | ReadOnlyForOthers
  | FullAccessForEveryone
  | Custom (mode : Nat)
deriving DecidableEq, Repr

/-- libc permission-bit constants used by `SemaphorePermission::as_mode`. -/
def S_IRWXU : Nat := 0o700

/-- libc group rwx bits. -/
def S_IRWXG : Nat := 0o070

/-- libc other read bit. -/
def S_IROTH : Nat := 0o004

/-- libc other write bit. -/
def S_IWOTH : Nat := 0o002

/-- libc other execute bit. -/
def S_IXOTH : Nat := 0o001

/-- src/semaphore.rs `SemaphorePermission::as_mode`. -/
def SemaphorePermission.as_mode : SemaphorePermission → Nat
  | SemaphorePermission.OwnerOnly => S_IRWXU
  | SemaphorePermission.OwnerAndGroup => S_IRWXU ||| S_IRWXG
  | SemaphorePermission.ReadWriteForOthers => S_IRWXU ||| S_IRWXG ||| S_IROTH ||| S_IWOTH
  | SemaphorePermission.ReadOnlyForOthers => S_IRWXU ||| S_IRWXG ||| S_IROTH
  | SemaphorePermission.FullAccessForEveryone =>
      S_IRWXU ||| S_IRWXG ||| S_IROTH ||| S_IWOTH ||| S_IXOTH
  | SemaphorePermission.Custom mode => mode

/-- src/semaphore.rs `Semaphore` (the raw `sem_t` descriptor is elided). -/
structure Semaphore where
  name : List Char
  is_owner : Bool
deriving DecidableEq, Repr

/-- src/semaphore.rs `SemaphoreSettings`. -/
structure SemaphoreSettings where
  mode : SemaphorePermission

/-- src/semaphore.rs `CortexSync::new` for `Semaphore`: resolve the mode (the
default is the most restrictive, `OwnerOnly`), derive the name (a `NulError`
becomes a Clean failure), `sem_open` with `O_EXCL | O_CREAT`, initial count 1;
on success `is_owner` is `true`. -/
def Semaphore.new (le : LockEnv) (cortex_key : Int)
    (settings : Option SemaphoreSettings) : Except CortexError Semaphore :=
  let _permission : Nat :=
    match settings with
    | some s => s.mode.as_mode
    | none => SemaphorePermission.OwnerOnly.as_mode
  match get_name cortex_key with
  | Except.error _ => Except.error (CortexError.CleanSystem "CString NulError")
  | Except.ok name =>
    if le.semOpenExclOk then Except.ok ⟨name, true⟩
    else Except.error (CortexError.CleanSystem "Error during sem_open")

/-- src/semaphore.rs `CortexSync::attach` for `Semaphore`: derive the name,
`sem_open` with flags 0 and mode 0; on success `is_owner` is `false`. -/
def Semaphore.attach (le : LockEnv) (cortex_key : Int) :
    Except CortexError Semaphore :=
  match get_name cortex_key with
  | Except.error _ => Except.error (CortexError.CleanSystem "CString NulError")
  | Except.ok name =>
    if le.semOpenPlainOk then Except.ok ⟨name, false⟩
    else Except.error (CortexError.CleanSystem "Error during sem_open")

/-- src/semaphore.rs `Semaphore::read_lock`: `sem_wait`; a failure surfaces as a
Clean error. -/
def Semaphore.read_lock (_s : Semaphore) (le : LockEnv) : Except CortexError Unit :=
  if le.semWaitOk then Except.ok ()
  else Except.error (CortexError.CleanSystem "Error during sem_wait")

/-- src/semaphore.rs `Semaphore::write_lock`: identical to `read_lock`. -/
def Semaphore.write_lock (_s : Semaphore) (le : LockEnv) : Except CortexError Unit :=
  if le.semWaitOk then Except.ok ()
  else Except.error (CortexError.CleanSystem "Error during sem_wait")

/-- src/semaphore.rs `Semaphore::release`: `sem_post`; a failure surfaces as a
Clean error. -/
def Semaphore.release (_s : Semaphore) (le : LockEnv) : Except CortexError Unit :=
  if le.semPostOk then Except.ok ()
  else Except.error (CortexError.CleanSystem "Error during sem_release")

/-- src/semaphore.rs `Semaphore::force_ownership`. -/
def Semaphore.force_ownership (s : Semaphore) : Semaphore :=
  { s with is_owner := true }

/-- src/semaphore.rs `impl Drop for Semaphore`: always `sem_close`; `sem_unlink`
only when `is_owner` (failures logged, never propagated). -/
def Semaphore.dropEffects (s : Semaphore) : List KernelOp :=
  KernelOp.semClose :: (if s.is_owner then [KernelOp.semUnlink] else [])

/-- src/builder.rs: the four phase markers of the typed builder. -/
inductive BuilderState
  | Uninitialized
  | Initialized
  | WithKey
  | WithRandomKey
deriving DecidableEq, Repr

/-- src/builder.rs `CortexBuilder<T, S>`: the phase `S` is a phantom parameter,
exactly as in the source (`state: PhantomData<S>` adds no runtime field). -/
structure CortexBuilder (T : Type) (S : BuilderState) where
  data : T
  force_ownership : Bool
  key : Option Int

/-- src/builder.rs `CortexBuilder::new`: phase `Initialized`, no key, the
`force_ownership` flag off. -/
def CortexBuilder.new {T : Type} (data : T) :
    CortexBuilder T BuilderState.Initialized :=
  ⟨data, false, none⟩

/-- src/builder.rs `CortexBuilder::key` (named `key'` here because the structure
field of the same name takes the plain name): set an explicit key, move to the
`WithKey` phase. -/
def CortexBuilder.key' {T : Type} (b : CortexBuilder T BuilderState.Initialized)
    (key : Int) : CortexBuilder T BuilderState.WithKey :=
  ⟨b.data, b.force_ownership, some key⟩

/-- src/builder.rs `CortexBuilder::random_key`: keep `key = None`, move to the
`WithRandomKey` phase (which offers no ownership switch). -/
def CortexBuilder.random_key {T : Type}
    (b : CortexBuilder T BuilderState.Initialized) :
    CortexBuilder T BuilderState.WithRandomKey :=
  ⟨b.data, b.force_ownership, none⟩

/-- src/builder.rs `CortexBuilder::force_ownership` (primed for the same reason
as `key'`): available only in the `WithKey` phase; sets the flag to `true`. -/
def CortexBuilder.force_ownership' {T : Type}
    (b : CortexBuilder T BuilderState.WithKey) :
    CortexBuilder T BuilderState.WithKey :=
  ⟨b.data, true, b.key⟩

/-- src/builder.rs `trait KeyState`, implemented by `WithKey`, `WithRandomKey`. -/
class KeyState (S : BuilderState) : Prop where

instance : KeyState BuilderState.WithKey := ⟨⟩

instance : KeyState BuilderState.WithRandomKey := ⟨⟩

/-- Modelled from the spec: the argument tuple that the builder threads into the
segment-handle creation call `Cortex::new(key, data, force_ownership,
lock_settings)`; the `Cortex` segment-handle implementation itself is not under
src/, so the call is recorded as this tuple. -/
structure CortexNewArgs (T : Type) (L : Type) where
  key : Option Int
  data : T
  force_ownership : Bool
  lock_settings : Option L
deriving Repr

/-- src/builder.rs `CortexBuilder::with_lock`: thread the selected key, the
payload, the flag, and `Some(lock_settings)` into `Cortex::new`. -/
def CortexBuilder.with_lock {T L : Type} {S : BuilderState} [KeyState S]
    (b : CortexBuilder T S) (lock_settings : L) : CortexNewArgs T L :=
  ⟨b.key, b.data, b.force_ownership, some lock_settings⟩

/-- src/builder.rs `CortexBuilder::with_default_lock`: as `with_lock` with no
settings (`None`). -/
def CortexBuilder.with_default_lock {T L : Type} {S : BuilderState} [KeyState S]
    (b : CortexBuilder T S) : CortexNewArgs T L :=
  ⟨b.key, b.data, b.force_ownership, none⟩

/-- Modelled from the spec: the random-key creation path of `Cortex::new`
(`key = None`), which is not under src/.  Each attempt draws a fresh random key
(`draws i` is the i-th draw) and requests exclusive creation (`inUse k` says the
draw collides with an existing segment); the first non-colliding draw succeeds;
when the budget is exhausted the failure propagates as Clean. -/
def cortexRandomRetry (draws : Nat → Int) (inUse : Int → Bool) :
    Nat → Nat → Except CortexError Int
  | _, 0 => Except.error (CortexError.CleanSystem "Error during shmget")
  | i, Nat.succ b =>
      let k := draws i
      if inUse k then cortexRandomRetry draws inUse (i + 1) b
      else Except.ok k

/-- Modelled from the spec: the full random-key path, with the policy constant
20 as the attempt budget. -/
def cortexNewRandomKey (draws : Nat → Int) (inUse : Int → Bool) :
    Except CortexError Int :=
  cortexRandomRetry draws inUse 0 20

theorem digitChar_ne_nul (d : Nat) : digitChar d ≠ Char.ofNat 0 := by
  unfold digitChar
  split <;> decide

theorem natDecAux_ne_nul (fuel n : Nat) : Char.ofNat 0 ∉ natDecAux fuel n := by
  induction fuel generalizing n with
  | zero => simp [natDecAux]
  | succ fuel ih =>
    cases n with
    | zero => simp [natDecAux]
    | succ m =>
      intro hmem
      rw [natDecAux] at hmem
      rcases List.mem_append.mp hmem with h | h
      · exact ih _ h
      · rcases List.mem_singleton.mp h with h'
        exact digitChar_ne_nul _ h'.symm

theorem natDec_ne_nul (n : Nat) : Char.ofNat 0 ∉ natDec n := by
  unfold natDec
  split
  · decide
  · exact natDecAux_ne_nul n n

theorem intDec_ne_nul (k : Int) : Char.ofNat 0 ∉ intDec k := by
  unfold intDec
  split
  · intro hmem
    rcases List.mem_cons.mp hmem with h | h
    · exact absurd h (by decide)
    · exact natDec_ne_nul _ h
  · exact natDec_ne_nul _

theorem semName_ne_nul (k : Int) : Char.ofNat 0 ∉ semName k := by
  intro hmem
  rcases List.mem_append.mp hmem with h | h
  · exact absurd h (by decide)
  · exact intDec_ne_nul k h

theorem hiveName_ne_nul (k : Int) : Char.ofNat 0 ∉ hiveName k := by
  intro hmem
  rcases List.mem_append.mp hmem with h | h
  · exact absurd h (by decide)
  · exact intDec_ne_nul k h

theorem get_name_ok (k : Int) : get_name k = Except.ok (semName k) := by
  unfold get_name cstringNew
  rw [if_neg (semName_ne_nul k)]

theorem hiveName_cstring_ok (k : Int) :
    cstringNew (hiveName k) = Except.ok (hiveName k) := by
  unfold cstringNew
  rw [if_neg (hiveName_ne_nul k)]

/-- C8: for every 32-bit signed key (proved for every integer key, which
subsumes it), the derived lock kernel name — the fixed textual base followed by
the decimal key — holds no embedded NUL byte, so `get_name` always succeeds, the
name-derivation error branch is unreachable, and none of the public creation or
attach operations (`Semaphore::new`, `Semaphore::attach`, `Hive::new`,
`Hive::attach`) ever returns a `NulError` value. -/
theorem c8_no_nul_error (k : Int) :
    ((semName k).elem (Char.ofNat 0) = false)
    ∧ ((hiveName k).elem (Char.ofNat 0) = false)
    ∧ get_name k = Except.ok (semName k)
    ∧ (∀ (le : LockEnv) (settings : Option SemaphoreSettings),
        cortexResIsNul (Semaphore.new le k settings) = false)
    ∧ (∀ le : LockEnv, cortexResIsNul (Semaphore.attach le k) = false)
    ∧ (∀ (T : Type) (le : LockEnv) (me : MemEnv T) (sizeT : Nat),
        hiveResIsNul (Hive.new le me k sizeT).1 = false)
    ∧ (∀ (T : Type) (le : LockEnv) (me : MemEnv T) (sizeT : Nat),
        hiveResIsNul (Hive.attach le me k sizeT).1 = false) := by
  refine ⟨?_, ?_, get_name_ok k, ?_, ?_, ?_, ?_⟩
  · rw [Bool.eq_false_iff]
    intro hc
    exact semName_ne_nul k (List.elem_iff.mp hc)
  · rw [Bool.eq_false_iff]
    intro hc
    exact hiveName_ne_nul k (List.elem_iff.mp hc)
  · intro le settings
    unfold Semaphore.new
    rw [get_name_ok k]
    cases hle : le.semOpenExclOk <;> simp [hle, cortexResIsNul]
  · intro le
    unfold Semaphore.attach
    rw [get_name_ok k]
    cases hle : le.semOpenPlainOk <;> simp [hle, cortexResIsNul]
  · intro T le me sizeT
    cases hle : le.semOpenExclOk <;>
      rcases eq_or_ne me.shmgetCreate (-1) with h2 | h2 <;>
      cases h3 : me.shmctlRmidOk me.shmgetCreate <;>
      rcases eq_or_ne (me.shmat me.shmgetCreate) (-1) with h4 | h4 <;>
      simp_all [Hive.new, Hive.newMap, try_clear_mem, hiveName_cstring_ok,
        hiveResIsNul]
  · intro T le me sizeT
    cases hle : le.semOpenPlainOk <;>
      rcases eq_or_ne me.shmgetLookup (-1) with h2 | h2 <;>
      rcases eq_or_ne (me.shmat me.shmgetLookup) (-1) with h4 | h4 <;>
      simp_all [Hive.attach, hiveName_cstring_ok, hiveResIsNul]

/-- C9: a builder finalized through the random-key path invokes segment-handle
creation with `key = None` and `force_ownership = false`; a builder finalized
through the explicit-key path with key `k` invokes it with `key = Some(k)`, and
with `force_ownership = true` exactly when `force_ownership()` was called —
for both `with_lock` (settings threaded as `Some`) and `with_default_lock`
(settings `None`). -/
theorem c9_builder_args (T L : Type) (data : T) (settings : L) (k : Int) :
    ((CortexBuilder.new data).random_key.with_lock settings =
        (⟨none, data, false, some settings⟩ : CortexNewArgs T L))
    ∧ (((CortexBuilder.new data).random_key.with_default_lock :
          CortexNewArgs T L) = ⟨none, data, false, none⟩)
    ∧ (((CortexBuilder.new data).key' k).with_lock settings =
        (⟨some k, data, false, some settings⟩ : CortexNewArgs T L))
    ∧ (((CortexBuilder.new data).key' k).force_ownership'.with_lock settings =
        (⟨some k, data, true, some settings⟩ : CortexNewArgs T L))
    ∧ ((((CortexBuilder.new data).key' k).with_default_lock :
          CortexNewArgs T L) = ⟨some k, data, false, none⟩)
    ∧ ((((CortexBuilder.new data).key' k).force_ownership'.with_default_lock :
          CortexNewArgs T L) = ⟨some k, data, true, none⟩) :=
  ⟨rfl, rfl, rfl, rfl, rfl, rfl⟩

/-- C1 environment: the exclusive `sem_open` succeeds, exclusive `shmget` fails
(the key is already in use, so it returns -1), and — as the kernel mandates for
an invalid segment id — `shmctl(IPC_RMID)` on the sentinel id -1 fails. -/
def envC1lock : LockEnv := ⟨true, true, true, true⟩

/-- C1 memory environment (see `envC1lock`). -/
def envC1mem : MemEnv Int := ⟨-1, -1, fun _ => -1, fun _ => false, 0⟩

/-- C1: the claim (and the spec) require a Clean failure when exclusive segment
creation fails on an in-use explicit key; the code instead calls
`try_clear_mem(id)` with the failure sentinel `id = -1`, whose inevitable
failure propagates as a `DirtySystemError` about "cleaning up" a segment that
was never created.  Evaluated at the failing input, `Hive::new` returns Dirty,
not Clean. -/
theorem c1_dirty_on_explicit_collision :
    (Hive.new envC1lock envC1mem 7 8).1 =
      Except.error (HiveError.DirtySystemError
        ("Error cleaning up shared memory with id: " ++ toString (-1 : Int))) := by
  decide

/-- C5 environment A: creation succeeds up to mapping; `shmat` fails (returns
the invalid address -1); the best-effort `shmctl(IPC_RMID)` removal succeeds. -/
def envC5lock : LockEnv := ⟨true, true, true, true⟩

/-- C5 memory environment A (see `envC5lock`): segment id 7, `shmat` fails,
removal succeeds. -/
def envC5mem : MemEnv Int := ⟨7, 7, fun _ => -1, fun _ => true, 0⟩

/-- C5 memory environment B: as environment A but the best-effort removal also
fails. -/
def envC5memB : MemEnv Int := ⟨7, 7, fun _ => -1, fun _ => false, 0⟩

/-- C5: the claim (and the spec) require a Clean failure when mapping the new
segment fails.  The code never produces one on that path: when the best-effort
removal succeeds, `Hive::new` returns `Ok` — after writing the payload through
the invalid address -1 — and when the removal fails it returns Dirty.  Both
failing inputs are evaluated here. -/
theorem c5_no_clean_on_map_failure :
    (Hive.new envC5lock envC5mem 3 8 =
      (Except.ok ⟨3, 7, 8, true, hiveName 3, -1⟩,
       [KernelOp.semOpen, KernelOp.shmGet, KernelOp.shmAt, KernelOp.shmRmid 7,
        KernelOp.memWrite (-1)]))
    ∧ (Hive.new envC5lock envC5memB 3 8).1 =
        Except.error (HiveError.DirtySystemError
          ("Error cleaning up shared memory with id: " ++ toString (7 : Int))) := by
  constructor
  · decide
  · decide

/-- C10 environment: `shmat` returns the invalid address -1 and the subsequent
best-effort `shmctl(IPC_RMID)` removal succeeds. -/
def envC10lock : LockEnv := ⟨true, true, true, true⟩

/-- C10 memory environment (see `envC10lock`): segment id 9. -/
def envC10mem : MemEnv Int := ⟨9, 9, fun _ => -1, fun _ => true, 0⟩

/-- C10: there is an execution of creation in which mapping fails (`shmat`
returns -1) and the best-effort removal succeeds, and on it `Hive::new` returns
no error: it performs the payload write through the invalid address -1 and
returns a handle whose internal pointer is that invalid address. -/
theorem c10_ok_with_invalid_ptr :
    ∃ h : Hive,
      (Hive.new envC10lock envC10mem 4 8).1 = Except.ok h
      ∧ h.ptr = -1
      ∧ KernelOp.memWrite (-1) ∈ (Hive.new envC10lock envC10mem 4 8).2
      ∧ envC10mem.shmat 9 = -1
      ∧ envC10mem.shmctlRmidOk 9 = true := by
  refine ⟨⟨4, 9, 8, true, hiveName 4, -1⟩, by decide, rfl, by decide, rfl, rfl⟩

/-- C2 environment: every lock call succeeds. -/
def envC2ok : LockEnv := ⟨true, true, true, true⟩

/-- C2 environment: `sem_wait` fails, everything else succeeds. -/
def envC2bad : LockEnv := ⟨true, true, false, true⟩

/-- C2 memory environment: slot holds 42. -/
def envC2mem : MemEnv Int := ⟨1, 1, fun _ => 100, fun _ => true, 42⟩

/-- C2 counterexample: the claim says a lock-operation failure during a read
surfaces to the caller as a Clean error, but `Hive::get_data` discards the
results of `sem_wait`/`sem_post` and its return type has no error channel.
At a concrete input where `sem_wait` fails, the read returns exactly the same
value-and-trace pair as when it succeeds — no error of any kind surfaces. -/
theorem c2_lock_failure_invisible :
    Hive.get_data envC2bad envC2mem = Hive.get_data envC2ok envC2mem
    ∧ Hive.get_data envC2bad envC2mem =
        (42, [KernelOp.semWait, KernelOp.memRead, KernelOp.semPost]) :=
  ⟨rfl, rfl⟩

/-- C2 amended: for every handle and stored value, the read operation performs
the semaphore wait, a bit-copy read of the slot, the semaphore post, and returns
the copy — unconditionally: failures of the wait/post are discarded by
`Hive::get_data` and do not surface to the caller.  (The `Semaphore::read_lock`
operation of the lock component, which `get_data` does not use, does surface a
wait failure as a Clean error.) -/
theorem c2_read_sequence (T : Type) (le : LockEnv) (me : MemEnv T) :
    Hive.get_data le me =
      (me.slot, [KernelOp.semWait, KernelOp.memRead, KernelOp.semPost])
    ∧ (∀ s : Semaphore, le.semWaitOk = false →
        Semaphore.read_lock s le =
          Except.error (CortexError.CleanSystem "Error during sem_wait")) := by
  constructor
  · rfl
  · intro s hw
    unfold Semaphore.read_lock
    rw [hw]
    rfl

/-- C2 witness: the amended theorem applied at a concrete environment where
`sem_wait` fails. -/
theorem c2_read_sequence_witness :
    Hive.get_data envC2bad envC2mem =
      (42, [KernelOp.semWait, KernelOp.memRead, KernelOp.semPost])
    ∧ Semaphore.read_lock ⟨semName 1, false⟩ envC2bad =
        Except.error (CortexError.CleanSystem "Error during sem_wait") :=
  ⟨(c2_read_sequence Int envC2bad envC2mem).1,
   (c2_read_sequence Int envC2bad envC2mem).2 ⟨semName 1, false⟩ rfl⟩

/-- C4 environment: lock construction (`sem_open`) fails; every shared-memory
call would succeed. -/
def envC4lock : LockEnv := ⟨false, true, true, true⟩

/-- C4 memory environment (see `envC4lock`). -/
def envC4mem : MemEnv Int := ⟨3, 3, fun _ => 100, fun _ => true, 0⟩

/-- C4 counterexample: in `Hive::new` the lock is constructed FIRST, not after
segment creation, mapping, and payload write: at a concrete input where lock
construction fails, the kernel trace holds only the `sem_open` call — no
segment was created, mapped, or written before it — and the failure is returned
as Clean, not Dirty as the claim requires. -/
theorem c4_lock_constructed_first_cex :
    Hive.new envC4lock envC4mem 1 8 =
      (Except.error (HiveError.CleanSystemError "Error during sem_open"),
       [KernelOp.semOpen]) := by
  decide

/-- C4 amended: in every creation run the lock is constructed before the
segment is touched: the first kernel operation of `Hive::new` is always the
`sem_open` lock construction, and if lock construction fails then no
segment operation has happened (the trace is exactly the one `sem_open`) and
the failure is returned as Clean — there is no segment to leak at that point. -/
theorem c4_lock_constructed_first (T : Type) (le : LockEnv) (me : MemEnv T)
    (key : Int) (sizeT : Nat) :
    (Hive.new le me key sizeT).2.head? = some KernelOp.semOpen
    ∧ (le.semOpenExclOk = false →
        Hive.new le me key sizeT =
          (Except.error (HiveError.CleanSystemError "Error during sem_open"),
           [KernelOp.semOpen])) := by
  constructor
  · cases hle : le.semOpenExclOk <;>
      rcases eq_or_ne me.shmgetCreate (-1) with h2 | h2 <;>
      cases h3 : me.shmctlRmidOk me.shmgetCreate <;>
      rcases eq_or_ne (me.shmat me.shmgetCreate) (-1) with h4 | h4 <;>
      simp_all [Hive.new, Hive.newMap, try_clear_mem, hiveName_cstring_ok]
  · intro hle
    simp [Hive.new, hiveName_cstring_ok, hle]

/-- C4 witness: the amended theorem applied at a concrete environment where
lock construction fails. -/
theorem c4_lock_constructed_first_witness :
    (Hive.new envC4lock envC4mem 1 8).2.head? = some KernelOp.semOpen
    ∧ Hive.new envC4lock envC4mem 1 8 =
        (Except.error (HiveError.CleanSystemError "Error during sem_open"),
         [KernelOp.semOpen]) :=
  ⟨(c4_lock_constructed_first Int envC4lock envC4mem 1 8).1,
   (c4_lock_constructed_first Int envC4lock envC4mem 1 8).2 rfl⟩

/-- C6: every handle returned by successful creation carries `is_owner = true`
(`Hive::new`, and `Semaphore::new` for the embedded lock instance of the
reference lock), and every handle returned by successful attach carries
`is_owner = false` (`Hive::attach`, `Semaphore::attach`). -/
theorem c6_owner_flags :
    (∀ (T : Type) (le : LockEnv) (me : MemEnv T) (key : Int) (sizeT : Nat)
        (h : Hive), (Hive.new le me key sizeT).1 = Except.ok h →
        h.is_owner = true)
    ∧ (∀ (T : Type) (le : LockEnv) (me : MemEnv T) (key : Int) (sizeT : Nat)
        (h : Hive), (Hive.attach le me key sizeT).1 = Except.ok h →
        h.is_owner = false)
    ∧ (∀ (le : LockEnv) (k : Int) (settings : Option SemaphoreSettings)
        (s : Semaphore), Semaphore.new le k settings = Except.ok s →
        s.is_owner = true)
    ∧ (∀ (le : LockEnv) (k : Int) (s : Semaphore),
        Semaphore.attach le k = Except.ok s → s.is_owner = false) := by
  refine ⟨?_, ?_, ?_, ?_⟩
  · intro T le me key sizeT h hok
    cases hle : le.semOpenExclOk <;>
      rcases eq_or_ne me.shmgetCreate (-1) with h2 | h2 <;>
      cases h3 : me.shmctlRmidOk me.shmgetCreate <;>
      rcases eq_or_ne (me.shmat me.shmgetCreate) (-1) with h4 | h4 <;>
      simp_all [Hive.new, Hive.newMap, try_clear_mem, hiveName_cstring_ok] <;>
      rw [← hok]
  · intro T le me key sizeT h hok
    cases hle : le.semOpenPlainOk <;>
      rcases eq_or_ne me.shmgetLookup (-1) with h2 | h2 <;>
      rcases eq_or_ne (me.shmat me.shmgetLookup) (-1) with h4 | h4 <;>
      simp_all [Hive.attach, hiveName_cstring_ok]
    all_goals rw [← hok]
  · intro le k settings s hok
    cases hle : le.semOpenExclOk <;> simp_all [Semaphore.new, get_name_ok]
    all_goals rw [← hok]
  · intro le k s hok
    cases hle : le.semOpenPlainOk <;> simp_all [Semaphore.attach, get_name_ok]
    all_goals rw [← hok]

/-- C6 environment: every call succeeds (creation id 5, address 4096). -/
def envOKlock : LockEnv := ⟨true, true, true, true⟩

/-- C6 memory environment (see `envOKlock`). -/
def envOKmem : MemEnv Int := ⟨5, 5, fun _ => 4096, fun _ => true, 0⟩

/-- C6 witness: the theorem applied at concrete environments where creation and
attach succeed. -/
theorem c6_owner_flags_witness :
    (⟨2, 5, 8, true, hiveName 2, 4096⟩ : Hive).is_owner = true
    ∧ (⟨2, 5, 8, false, hiveName 2, 4096⟩ : Hive).is_owner = false
    ∧ (⟨semName 2, true⟩ : Semaphore).is_owner = true
    ∧ (⟨semName 2, false⟩ : Semaphore).is_owner = false :=
  ⟨c6_owner_flags.1 Int envOKlock envOKmem 2 8 _ (by decide),
   c6_owner_flags.2.1 Int envOKlock envOKmem 2 8 _ (by decide),
   c6_owner_flags.2.2.1 envOKlock 2 none _ (by decide),
   c6_owner_flags.2.2.2 envOKlock 2 _ (by decide)⟩

/-- C7: destroying a non-owner handle removes nothing from the kernel: a
non-owner `Hive` drop performs no kernel operation at all, a non-owner
`Semaphore` drop performs exactly the reference-count-decrementing `sem_close`,
and `sem_unlink` / segment removal appear in a drop trace only when
`is_owner = true`. -/
theorem c7_non_owner_drop :
    (∀ h : Hive, h.is_owner = false → Hive.dropEffects h = [])
    ∧ (∀ s : Semaphore, s.is_owner = false →
        Semaphore.dropEffects s = [KernelOp.semClose])
    ∧ (∀ h : Hive, KernelOp.semUnlink ∈ Hive.dropEffects h →
        h.is_owner = true)
    ∧ (∀ (h : Hive) (i : Int), KernelOp.shmRmid i ∈ Hive.dropEffects h →
        h.is_owner = true)
    ∧ (∀ s : Semaphore, KernelOp.semUnlink ∈ Semaphore.dropEffects s →
        s.is_owner = true) := by
  refine ⟨?_, ?_, ?_, ?_, ?_⟩
  · intro h ho
    simp [Hive.dropEffects, ho]
  · intro s ho
    simp [Semaphore.dropEffects, ho]
  · intro h hmem
    cases ho : h.is_owner with
    | false => simp [Hive.dropEffects, ho] at hmem
    | true => rfl
  · intro h i hmem
    cases ho : h.is_owner with
    | false => simp [Hive.dropEffects, ho] at hmem
    | true => rfl
  · intro s hmem
    cases ho : s.is_owner with
    | false => simp [Semaphore.dropEffects, ho] at hmem
    | true => rfl

/-- C7 witness: the theorem applied to concrete non-owner and owner handles. -/
theorem c7_non_owner_drop_witness :
    Hive.dropEffects ⟨1, 2, 8, false, hiveName 1, 64⟩ = []
    ∧ Semaphore.dropEffects ⟨semName 1, false⟩ = [KernelOp.semClose]
    ∧ (⟨1, 2, 8, true, hiveName 1, 64⟩ : Hive).is_owner = true
    ∧ (⟨semName 1, true⟩ : Semaphore).is_owner = true :=
  ⟨c7_non_owner_drop.1 _ rfl,
   c7_non_owner_drop.2.1 _ rfl,
   c7_non_owner_drop.2.2.1 ⟨1, 2, 8, true, hiveName 1, 64⟩ (by decide),
   c7_non_owner_drop.2.2.2.2 ⟨semName 1, true⟩ (by decide)⟩

theorem cortexRandomRetry_all_fail (draws : Nat → Int) (inUse : Int → Bool) :
    ∀ b i : Nat, (∀ j, j < b → inUse (draws (i + j)) = true) →
    cortexRandomRetry draws inUse i b =
      Except.error (CortexError.CleanSystem "Error during shmget") := by
  intro b
  induction b with
  | zero =>
    intro i _
    rfl
  | succ b ih =>
    intro i hall
    have h0 : inUse (draws i) = true := by
      have := hall 0 (Nat.succ_pos b)
      simpa using this
    simp only [cortexRandomRetry, h0, if_true]
    refine ih (i + 1) (fun j hj => ?_)
    rw [show i + 1 + j = i + (j + 1) by omega]
    exact hall (j + 1) (by omega)

theorem cortexRandomRetry_first_ok (draws : Nat → Int) (inUse : Int → Bool) :
    ∀ b i j : Nat, j < b → inUse (draws (i + j)) = false →
    (∀ l, l < j → inUse (draws (i + l)) = true) →
    cortexRandomRetry draws inUse i b = Except.ok (draws (i + j)) := by
  intro b
  induction b with
  | zero =>
    intro i j hj _ _
    exact absurd hj (Nat.not_lt_zero j)
  | succ b ih =>
    intro i j hj hfalse hprior
    cases j with
    | zero =>
      have h0 : inUse (draws i) = false := by simpa using hfalse
      simp [cortexRandomRetry, h0]
    | succ j' =>
      have h0 : inUse (draws i) = true := by
        have := hprior 0 (Nat.succ_pos j')
        simpa using this
      simp only [cortexRandomRetry, h0, if_true]
      have hrec := ih (i + 1) j' (by omega)
        (by rw [show i + 1 + j' = i + (j' + 1) by omega]; exact hfalse)
        (fun l hl => by
          rw [show i + 1 + l = i + (l + 1) by omega]
          exact hprior (l + 1) (by omega))
      rw [show i + 1 + j' = i + (j' + 1) by omega] at hrec
      exact hrec

/-- C3 (spec-modelled): on the random-key creation path, creation is retried
with a fresh random draw per attempt, up to the policy constant of 20 attempts:
if the j-th draw (j < 20) is the first that does not collide, creation returns
that key; if all 20 attempts collide, the failure propagates as Clean. -/
theorem c3_random_retry (draws : Nat → Int) (inUse : Int → Bool) :
    ((∀ i, i < 20 → inUse (draws i) = true) →
      cortexNewRandomKey draws inUse =
        Except.error (CortexError.CleanSystem "Error during shmget"))
    ∧ (∀ j, j < 20 → inUse (draws j) = false →
        (∀ l, l < j → inUse (draws l) = true) →
        cortexNewRandomKey draws inUse = Except.ok (draws j)) := by
  constructor
  · intro hall
    exact cortexRandomRetry_all_fail draws inUse 20 0
      (fun j hj => by simpa using hall j hj)
  · intro j hj hfalse hprior
    have h := cortexRandomRetry_first_ok draws inUse 20 0 j hj
      (by simpa using hfalse) (fun l hl => by simpa using hprior l hl)
    simpa using h

/-- C3 witness: the theorem applied at a draw sequence whose first draw does
not collide (it returns that first draw), and at one where every draw collides
(it returns a Clean failure). -/
theorem c3_random_retry_witness :
    cortexNewRandomKey (fun _ => 5) (fun _ => false) = Except.ok 5
    ∧ cortexNewRandomKey (fun _ => 5) (fun _ => true) =
        Except.error (CortexError.CleanSystem "Error during shmget") := by
  constructor
  · have h := (c3_random_retry (fun _ => 5) (fun _ => false)).2 0 (by decide)
      rfl (fun l hl => absurd hl (Nat.not_lt_zero l))
    simpa using h
  · exact (c3_random_retry (fun _ => 5) (fun _ => true)).1 (fun i _ => rfl)
